import Mathlib

/-!
Verification of the cntrlr core against its specification.

Shallow embedding of the record model, classifier/populator, tree scanner,
repository registry and import pipeline from:
  - lib/core/src/core/utils.py            (get_mime_type, get_git_metadata,
                                           get_file_sha256, get_path_model)
  - lib/core/src/core/models/file_system/base.py
                                          (FilePath, BaseFileModel, TextFileLine,
                                           BaseTextFile)
  - lib/services/src/services/scanning.py (RepoIndex, LocalRepoScanner)
  - lib/services/src/services/file_importer.py (FileImporterService)
  - lib/core/src/core/constants.py        (IGNORE_PARTS, IGNORE_EXTENSIONS)

External collaborators (hashlib digests, the git library, the filesystem and
the SQL storage engine) are modelled as explicit oracles/parameters; Python
exceptions are modelled with explicit error values.
-/

namespace Cntrlr

/-- Python exception values that the embedded code can raise. -/
inductive PyError where
  | attributeError : PyError
  | typeError : PyError
  deriving DecidableEq, Repr

/-! ### get_mime_type (core/utils.py lines 370-394)

```python
def get_mime_type(file_path: Path) -> str:
    try:
        ... # import of the stdlib mimetypes module
        mime_type, _ = mimetypes.guess_type(file_path.as_posix(), strict=False)
        if mime_type is None:
            return "application/octet-stream"
    except Exception as e:
        raise RuntimeError(...) from e
```

The call `mimetypes.guess_type` is external; its result is the parameter
`guess`.  Note the body only returns in the `guess = None` branch; when the
extension is recognized the function falls off the end, which in Python
returns `None`. -/
def get_mime_type (guess : Option String) : Option String :=
  match guess with
  | none => some "application/octet-stream"
  | some _ => none

/-! ### get_git_metadata (core/utils.py lines 538-599)

```python
def get_git_metadata(repo_path: Path) -> Optional[GitMetadata]:
    if not (repo_path / ".git").exists() or not repo_path.is_dir():
        return None
    try:
        repo = git.Repo(repo_path)
        ... build GitMetadata from repo ...
        return GitMetadata(...)
    except Exception:
        return None
```

All reads from the `git` library happen inside the single `try`; the embedding
collapses them into one oracle `read` which either yields the assembled
metadata or fails.  The function itself never lets an exception escape, which
the `Except PyError` result type makes explicit: it is always `.ok`. -/

structure GitCommit where
  hash : String
  message : String
  author : String
  date : String
  deriving DecidableEq, Repr

structure GitMetadata where
  remotes : List (String × String)
  current_branch : String
  branches : List String
  latest_commit : GitCommit
  uncommitted_changes : Bool
  untracked_files : Nat
  commit_history : List GitCommit
  deriving DecidableEq, Repr

/-- Outcome of all the reads performed on the `git` library inside the `try`
block of `get_git_metadata`.  A `.error` stands for any underlying read
failure (the blanket `except Exception`). -/
def GitRead := Except String GitMetadata

def get_git_metadata (gitMarkerExists : Bool) (isDir : Bool)
    (read : Except String GitMetadata) : Except PyError (Option GitMetadata) :=
  if !gitMarkerExists || !isDir then
    Except.ok none
  else
    match read with
    | Except.ok m => Except.ok (some m)
    | Except.error _ => Except.ok none

/-! ### Ignore lists (core/constants.py lines 50-197)

Transcription of `IGNORE_PARTS` and `IGNORE_EXTENSIONS`.  They are exported
from `core.constants` with the documented purpose "to skip during recursive
scans", but no scanning code under the repository imports or consults them. -/

def IGNORE_PARTS : List String :=
  [".hg", ".svn", "node_modules", "__pycache__", ".idea", ".tox",
   ".pytest_cache", ".mypy_cache", ".ipynb_checkpoints", ".eggs", "logs",
   "tmp", "temp", "cache", "bin", "obj", "out", "AppData", "Local", "Roaming",
   ".anaconda", ".devcontainer", ".aider", ".aitk", ".android", ".gradle",
   ".astropy", ".aws", ".azure", ".cache", ".cargo", ".chocolatey", ".codium",
   ".continuum", ".cursor", ".dbclient", ".ddl_mappings", ".dev", ".docker",
   ".dotnet", ".embedchain", ".gnupg", ".ipython", ".jdks", ".kivy", ".llama",
   ".local", ".m2", ".matplotlib", ".nuget", ".ollama", ".pki", ".pyenv",
   ".pylint.d", ".pypoetry", ".python-eggs", ".shiv", ".slack", ".ssh",
   ".streamlit", ".swarm_ui", ".spyder-py3", ".templateengine",
   ".testEmbedding", ".torrent_bak", ".u2net", ".ubuntu", ".vagrant",
   ".virtualenvs", ".vsts", ".wallaby", ".winget_portable_root", ".winget",
   ".zenmap", ".zsh_history", ".zshrc", "bower_components", ".vscode",
   ".venv", "venv", "env", "site-packages", "dist", "build",
   "pip-wheel-metadata", ".egg-info", ".eggs", ".log", ".tmp", "3D Objects",
   "Contacts", "Scans", "Saved Games", "Searches", "pipx", "StreamBooth",
   ".mypy_cache*", ".mypy.ini", "packages", "uv.lock", ".python-version"]

def IGNORE_EXTENSIONS : List String :=
  [".pyc", ".pyo", ".db", ".sqlite", ".log", ".DS_Store", ".lock", ".dll",
   ".exe", ".lnk", "Thumbs.db", ".tmp", ".bak", ".swp", ".pyd", ".egg",
   ".egg-info", ".pkl", ".pickle", ".so", ".dylib", ".o", ".a", ".lib",
   ".obj", ".class", ".jar", ".war", ".ear", ".zip", ".tar", ".tar.gz",
   ".tgz", ".gz", ".bz2", ".xz", ".7z", ".rar", ".iso"]

/-! ### LocalRepoScanner.__locate_repos (services/scanning.py lines 497-519)

```python
if recursive:
    for dirpath, dirnames, filenames in os.walk(base_path):
        if ".git" in dirnames:
            yield Path(dirpath)
            dirnames.remove(".git")  # Prevent descending into .git directories
```

The filesystem is modelled as a directory tree (file entries play no role in
this walk: `filenames` is never consulted, and no name from `IGNORE_PARTS`
and no suffix from `IGNORE_EXTENSIONS` is consulted either).  `os.walk`
descends top-down; removing a name from `dirnames` prunes descent into it,
and that happens only for `".git"`, and only when `".git"` is present. -/

inductive Dir where
  | node : String → List Dir → Dir
  deriving Repr

def Dir.name : Dir → String
  | .node n _ => n

def Dir.children : Dir → List Dir
  | .node _ cs => cs

/-- The walk of `__locate_repos` with `recursive=True`, yielding the path (as
a list of path components from the base) of every directory that has a
`.git` child.  The only pruning performed is of the `.git` entry itself. -/
def locate_repos : Dir → List String → List (List String)
  | .node _ cs, path =>
    let names := cs.map Dir.name
    let here := if names.contains ".git" then [path] else []
    here ++ (cs.attach.map (fun c =>
      if names.contains ".git" && c.1.name == ".git" then []
      else locate_repos c.1 (path ++ [c.1.name]))).flatten
  termination_by d _ => sizeOf d
  decreasing_by
    simp only [Dir.node.sizeOf_spec]
    have := List.sizeOf_lt_of_mem c.2
    omega

/-! ### Character-level string helpers

Python string operations used by the embedded code (`split`, `startswith`,
last-component extraction) are transcribed at the character-list level so the
proofs can proceed by structural induction. -/

/-- Split a character list on a separator character, keeping empty segments,
like Python `str.split(sep)`. -/
def charSplit (sep : Char) : List Char → List (List Char)
  | [] => [[]]
  | c :: rest =>
    let tail := charSplit sep rest
    if c = sep then [] :: tail
    else match tail with
      | [] => [[c]]
      | seg :: segs => (c :: seg) :: segs

/-- Python `s.split(sep)` returning strings. -/
def strSplit (sep : Char) (s : String) : List String :=
  (charSplit sep s.data).map (fun l => String.mk l)

/-- Python `s.startswith("/")`. -/
def startsWithSlash (s : String) : Bool :=
  match s.data with
  | c :: _ => c = '/'
  | [] => false

/-- The final slash-separated component of a path string, `pathlib`'s
`Path(s).name` for a normalized path string with no trailing slash. -/
def pathName (s : String) : String :=
  (strSplit '/' s).getLastD ""

/-! ### The repository registry (services/scanning.py)

The SQLite database is modelled as the list of rows of each table, and
`sqlite_utils`'s `Table.rows_where` faithfully as what it is in that library:
a *generator* over the matching rows. -/

/-- A Python generator object over values of type `α`.  A generator carries
its (eventual) items but, crucially, defines neither `__bool__` nor
`__len__`. -/
structure PyGenerator (α : Type) where
  items : List α

/-- Python truthiness of a generator object: since generators define neither
`__bool__` nor `__len__`, `bool(gen)` is `True` regardless of whether the
generator would yield anything. -/
def PyGenerator.truthy {α : Type} (_ : PyGenerator α) : Bool :=
  true

/-- Row of the `local_repos` table (`LocalRepoIdxEntity`, scanning.py lines
105-166; the DB-assigned `id` column is elided). -/
structure LocalRepoIdxEntity where
  scan_path : String
  storage_path : Option String
  added_at : Nat
  updated_at : Option Nat
  deriving DecidableEq, Repr

/-- Row of the `cloned_repos` table (`ClonedRepoIdxEntity`, scanning.py lines
169-199). -/
structure ClonedRepoIdxEntity where
  remote_url : String
  storage_path : Option String
  added_at : Nat
  updated_at : Option Nat
  deriving DecidableEq, Repr

/-- Exceptions raised by the registry service (scanning.py lines 38-54),
plus `osError` for propagated filesystem/git errors. -/
inductive RepoExc where
  | repositoryAlreadyExists : RepoExc
  | repositoryCloning : RepoExc
  | osError : String → RepoExc
  deriving DecidableEq, Repr

/-- Embedding of `self.__db["local_repos"].rows_where("scan_path = ?", [str(scan_path)])`:
a generator over the rows whose `scan_path` matches. -/
def rows_where_scan_path (rows : List LocalRepoIdxEntity) (p : String) :
    PyGenerator LocalRepoIdxEntity :=
  ⟨rows.filter (fun r => r.scan_path == p)⟩

/-- Embedding of `RepoIndex.__add_local_repository` (scanning.py lines 313-351).

```python
storage_path = self.__remotes_dir / scan_path.name if copy else scan_path
try:
    existing = self.__db["local_repos"].rows_where("scan_path = ?", [str(scan_path)])
    if existing:
        raise RepositoryAlreadyExistsError(...)
    if copy:
        storage_path = self.__remotes_dir / scan_path.name
        shutil.copytree(scan_path, storage_path)
    entity = LocalRepoIdxEntity(scan_path=scan_path,
                                storage_path=storage_path if copy else None,
                                added_at=get_time())
    self.__db["local_repos"].insert(...)
    return scan_path
except Exception as e:
    self.__logger.error(...)
    raise
```

`existing` is a generator object, so `if existing:` takes the raise branch
unconditionally; the bare `raise` re-raises the same exception.  `copytree`
and the clock are external, passed as `copytree` and `now`. -/
def add_local_repository (db : List LocalRepoIdxEntity) (scan_path : String)
    (copy : Bool) (remotes_dir : String) (copytree : Except String Unit)
    (now : Nat) : Except RepoExc (String × List LocalRepoIdxEntity) :=
  let existing := rows_where_scan_path db scan_path
  if existing.truthy then
    Except.error RepoExc.repositoryAlreadyExists
  else
    match (if copy then copytree else Except.ok ()) with
    | Except.error e => Except.error (RepoExc.osError e)
    | Except.ok _ =>
      let storage_path := remotes_dir ++ "/" ++ pathName scan_path
      let entity : LocalRepoIdxEntity :=
        ⟨scan_path, if copy then some storage_path else none, now, none⟩
      Except.ok (scan_path, db ++ [entity])

/-- Embedding of `RepoIndex.__add_remote_repository` (scanning.py lines 278-311).

```python
try:
    repo_name = remote_url.split("/")[-1].replace(".git", "")
    local_path = self.__remotes_dir / repo_name
    if local_path.exists():
        raise RepositoryAlreadyExistsError(...)
    git.Repo.clone_from(remote_url, local_path)
    entity = ClonedRepoIdxEntity(...)
    self.__db["cloned_repos"].insert(...)
    return local_path
except Exception as e:
    raise RepositoryCloningError(...) from e
```

Every exception raised inside the `try` -- including the
`RepositoryAlreadyExistsError` for an existing target directory -- is caught
by the blanket `except` and re-raised as `RepositoryCloningError`. -/
def add_remote_repository (db : List ClonedRepoIdxEntity) (remote_url : String)
    (remotes_dir : String) (localPathExists : Bool)
    (clone : Except String Unit) (now : Nat) :
    Except RepoExc (String × List ClonedRepoIdxEntity) :=
  let repo_name := ((strSplit '/' remote_url).getLastD "").replace ".git" ""
  let local_path := remotes_dir ++ "/" ++ repo_name
  let inner : Except RepoExc (String × List ClonedRepoIdxEntity) :=
    if localPathExists then
      Except.error RepoExc.repositoryAlreadyExists
    else
      match clone with
      | Except.error e => Except.error (RepoExc.osError e)
      | Except.ok _ =>
        Except.ok (local_path, db ++ [⟨remote_url, some local_path, now, none⟩])
  match inner with
  | Except.ok r => Except.ok r
  | Except.error _ => Except.error RepoExc.repositoryCloning

/-- Embedding of `RepoIndex.update_all_remotes` (scanning.py lines 410-432): iterate the
directories of the remotes dir; pull each inside `try`, yielding
`(repo_path, True, None)` on success and `(repo_path, False, str(e))` on any
exception.  `pull` is the external git pull. -/
def update_all_remotes (dirs : List String)
    (pull : String → Except String Unit) :
    List (String × Bool × Option String) :=
  match dirs with
  | [] => []
  | p :: rest =>
    (match pull p with
     | Except.ok _ => (p, true, (none : Option String))
     | Except.error e => (p, false, some e)) :: update_all_remotes rest pull

/-- Embedding of `RepoIndex.update_all_locals` (scanning.py lines 434-465).

```python
for repo_entity in local_repos:
    repo_path = repo_entity.scan_path if in_place else repo_entity.storage_path
    if not repo_path.exists():
        yield (repo_path, False, f"Repository at {repo_path} not found.")
        continue
    try:
        repo = git.Repo(repo_path); repo.git.fetch()
        yield (repo_path, True, None)
    except Exception as e:
        yield (repo_path, False, str(e))
```

When `in_place` is false and `storage_path` is `None`, the attribute access
`repo_path.exists()` on `None` raises `AttributeError`, terminating the
generator; the second component of the result records that exception. -/
def update_all_locals (in_place : Bool) (repos : List LocalRepoIdxEntity)
    (pathExists : String → Bool) (fetch : String → Except String Unit) :
    List (String × Bool × Option String) × Option PyError :=
  match repos with
  | [] => ([], none)
  | e :: rest =>
    match (if in_place then some e.scan_path else e.storage_path) with
    | none => ([], some PyError.attributeError)
    | some repo_path =>
      let outcome :=
        if !(pathExists repo_path) then
          (repo_path, false,
            some ("Repository at " ++ repo_path ++ " not found."))
        else
          match fetch repo_path with
          | Except.ok _ => (repo_path, true, (none : Option String))
          | Except.error e => (repo_path, false, some e)
      let rest_result := update_all_locals in_place rest pathExists fetch
      (outcome :: rest_result.1, rest_result.2)

/-- The outcome `update_all_remotes` produces for a single repository. -/
def remote_outcome (pull : String → Except String Unit) (p : String) :
    String × Bool × Option String :=
  match pull p with
  | Except.ok _ => (p, true, none)
  | Except.error e => (p, false, some e)

/-- The outcome `update_all_locals` produces for a single reachable path. -/
def local_outcome (pathExists : String → Bool)
    (fetch : String → Except String Unit) (p : String) :
    String × Bool × Option String :=
  if !(pathExists p) then
    (p, false, some ("Repository at " ++ p ++ " not found."))
  else
    match fetch p with
    | Except.ok _ => (p, true, none)
    | Except.error e => (p, false, some e)

/-! ### Paths (pathlib) and the FilePath descriptor
(core/models/file_system/base.py lines 95-217, core/utils.py lines 339-367)

A `pathlib` POSIX path object is always held in normalized form: a root
(`""` for relative paths, `"/"`, or the special `"//"`) and a list of
non-empty component names none of which is `"."` or contains a slash.
`PyPath` is that normalized form; `mkPath` is the `Path(*args)` constructor
(each argument is parsed, empty and `"."` segments dropped, and an absolute
argument resets what came before, exactly as `pathlib` joins). -/

structure PyPath where
  root : String
  names : List String
  deriving DecidableEq, Repr

/-- Rendering `str(path)` of a normalized POSIX path. -/
def PyPath.toStr (p : PyPath) : String :=
  if p.root = "" && p.names = [] then "."
  else p.root ++ String.intercalate "/" p.names

/-- Embedding of `pathlib` `parts`: the root (when absolute) followed by the names. -/
def PyPath.parts (p : PyPath) : List String :=
  (if p.root = "" then [] else [p.root]) ++ p.names

/-- Number of leading slashes of a string (for root classification). -/
def leadSlashes : List Char → Nat
  | '/' :: rest => leadSlashes rest + 1
  | _ => 0

/-- Root of an absolute path argument: exactly two leading slashes give the
POSIX special root `"//"`, any other number gives `"/"`. -/
def rootOf (a : String) : String :=
  if leadSlashes a.data = 2 then "//" else "/"

/-- Parsing one `Path()` argument into component names: split on `/`, drop
empty segments and `"."` segments. -/
def parseNames (a : String) : List String :=
  (strSplit '/' a).filter (fun s => s != "" && s != ".")

/-- One joining step of the `Path(*args)` constructor: an absolute argument
resets the accumulated path, any other argument appends its parsed names. -/
def mkPathStep (acc : PyPath) (a : String) : PyPath :=
  if startsWithSlash a then ⟨rootOf a, parseNames a⟩
  else ⟨acc.root, acc.names ++ parseNames a⟩

/-- The `Path(*args)` constructor on a list of string arguments. -/
def mkPath (args : List String) : PyPath :=
  args.foldl mkPathStep ⟨"", []⟩

/-- A `PyPath` is well formed when it is in the normalized shape `pathlib`
maintains: recognised root, and names that are non-empty, are not `"."`, and
contain no slash. -/
def PyPath.wfb (p : PyPath) : Bool :=
  (p.root == "" || p.root == "/" || p.root == "//") &&
    p.names.all (fun n => n != "" && n != "." && !(n.data.contains '/'))

/-- Last index of a character in a list, like Python `str.rfind`. -/
def rfindChar (c : Char) : List Char → Option Nat
  | [] => none
  | x :: rest =>
    match rfindChar c rest with
    | some i => some (i + 1)
    | none => if x = c then some 0 else none

/-- Embedding of `pathlib` `suffix` of a final component, transcribed from CPython:
the part from the last dot, provided that dot is neither the first nor the
last character. -/
def pySuffix (nm : String) : String :=
  match rfindChar '.' nm.data with
  | some i =>
    if 0 < i && i < nm.data.length - 1 then String.mk (nm.data.drop i) else ""
  | none => ""

/-- Embedding of `pathlib` `stem`: the final component without its `suffix`. -/
def pyStem (nm : String) : String :=
  match rfindChar '.' nm.data with
  | some i =>
    if 0 < i && i < nm.data.length - 1 then String.mk (nm.data.take i) else nm
  | none => nm

/-- Embedding of `pathlib` `suffixes`, transcribed from CPython: empty when the name ends
with a dot, otherwise one dotted suffix per embedded dot after stripping
leading dots. -/
def pySuffixes (nm : String) : List String :=
  if nm.data.getLast? = some '.' then []
  else
    ((strSplit '.' (String.mk (nm.data.dropWhile (fun c => c = '.')))).tail).map
      (fun s => "." ++ s)

/-- Embedding of `pathlib` `name` of a path: the last component, `""` at the root. -/
def PyPath.pname (p : PyPath) : String :=
  p.names.getLastD ""

/-- Embedding of `pathlib` `parent`: drop the last component (a root or lone relative
path is its own parent). -/
def PyPath.parentPath (p : PyPath) : PyPath :=
  if p.names = [] then p else ⟨p.root, p.names.dropLast⟩

/-- Embedding of `pathlib` `parents` as rendered strings, from the immediate parent up to
the root (or `"."` for relative paths). -/
def PyPath.parentsList (p : PyPath) : List String :=
  (List.range p.names.length).map
    (fun k => PyPath.toStr ⟨p.root, p.names.take (p.names.length - 1 - k)⟩)

/-- The `FilePath` Pydantic model (core/models/file_system/base.py lines
95-217): a full decomposition of a `pathlib.Path`. -/
structure FilePath where
  name : String
  suffix : String
  suffixes : List String
  stem : String
  parent : String
  parents : List String
  anchor : String
  drive : String
  root : String
  parts : List String
  is_absolute : Bool
  deriving DecidableEq, Repr

/-- Embedding of `get_path_model` (core/utils.py lines 339-367): build the `FilePath`
descriptor from a path's `pathlib` attributes (POSIX flavour: `drive` is
always empty and `anchor = root`). -/
def get_path_model (file_path : PyPath) : FilePath :=
  { name := file_path.pname
    suffix := pySuffix file_path.pname
    suffixes := pySuffixes file_path.pname
    stem := pyStem file_path.pname
    parent := PyPath.toStr file_path.parentPath
    parents := file_path.parentsList
    anchor := file_path.root
    drive := ""
    root := file_path.root
    parts := file_path.parts
    is_absolute := file_path.root != "" }

/-- Embedding of `FilePath.Path` property (core/models/file_system/base.py lines 159-190):
`Path(*self.parts)`. -/
def FilePath.Path (fp : FilePath) : PyPath :=
  mkPath fp.parts

/-! ### BaseFileModel and its identity
(core/models/file_system/base.py lines 485-635, core/utils.py lines 244-336)

The SHA-256 digests from `hashlib` are external collaborators, passed in as
the functions `sha256_bytes` (digest of a byte stream) and `sha256_str`
(digest of an encoded string); file bytes are `List Nat`. -/

/-- Embedding of `BaseFileStat` (core/models/file_system/base.py lines 222-352).  The
float-valued timestamps are modelled as integers (no arithmetic is ever
performed on them). -/
structure BaseFileStat where
  st_mode : Option Int := none
  st_ino : Option Int := none
  st_dev : Option Int := none
  st_nlink : Option Int := none
  st_uid : Option Int := none
  st_gid : Option Int := none
  st_size : Option Int := none
  st_atime : Option Int := none
  st_mtime : Option Int := none
  st_ctime : Option Int := none
  st_atime_ns : Option Int := none
  st_mtime_ns : Option Int := none
  st_ctime_ns : Option Int := none
  st_blocks : Option Int := none
  st_blksize : Option Int := none
  st_rdev : Option Int := none
  deriving DecidableEq, Repr

/-- Embedding of `get_file_sha256` (core/utils.py lines 244-271): the streaming loop
feeds exactly the file's bytes, 4096 at a time, to one SHA-256 digest, so
the result is the digest of the whole byte content. -/
def get_file_sha256 (sha256_bytes : List Nat → String)
    (contents : List Nat) : String :=
  sha256_bytes contents

/-- Embedding of `BaseFileModel` (core/models/file_system/base.py lines 485-635). -/
structure BaseFileModel where
  type : String := "file"
  sha256 : String
  stat_json : BaseFileStat
  path_json : FilePath
  mime_type : Option String
  tags : Option (List String) := none
  short_description : Option String := none
  long_description : Option String := none
  frozen : Bool := true
  deriving DecidableEq, Repr

/-- Embedding of `BaseFileModel.id` (core/models/file_system/base.py lines 604-606):
`sha256(f"{self.path_json.Path}{self.sha256}".encode()).hexdigest()`. -/
def BaseFileModel.id (sha256_str : String → String) (m : BaseFileModel) :
    String :=
  sha256_str (PyPath.toStr (FilePath.Path m.path_json) ++ m.sha256)

/-- Embedding of `BaseFileModel.populate` (core/models/file_system/base.py lines
611-631): overwrite the hash, stat, path and MIME fields of `m` from the
file at `file_path` with byte content `contents`, stat snapshot `st` and
`mimetypes` guess `mimeGuess`. -/
def BaseFileModel.populate (sha256_bytes : List Nat → String)
    (file_path : PyPath) (contents : List Nat) (st : BaseFileStat)
    (mimeGuess : Option String) (m : BaseFileModel) : BaseFileModel :=
  { m with
    sha256 := get_file_sha256 sha256_bytes contents
    stat_json := st
    path_json := get_path_model file_path
    mime_type := get_mime_type mimeGuess }

/-! ### Text files and their lines
(core/models/file_system/base.py lines 703-783, core/base.py lines 776-867)

`readlines` is Python `file.readlines()`: split into lines, each keeping its
trailing newline; no empty final line is produced for content ending in a
newline. -/

def readlinesAux : List Char → List Char → List (List Char)
  | [], acc => if acc.isEmpty then [] else [acc.reverse]
  | c :: rest, acc =>
    if c = '\n' then (acc.reverse ++ ['\n']) :: readlinesAux rest []
    else readlinesAux rest (c :: acc)

def readlines (s : String) : List String :=
  (readlinesAux s.data []).map (fun l => String.mk l)

/-- Python `line.rstrip("\n")`: drop all trailing newline characters. -/
def rstripNl (s : String) : String :=
  String.mk (s.data.reverse.dropWhile (fun c => c = '\n')).reverse

/-- Python `line.rstrip("\r")`: drop all trailing carriage returns. -/
def rstripCr (s : String) : String :=
  String.mk (s.data.reverse.dropWhile (fun c => c = '\r')).reverse

/-- Python `"".join(lines).replace("\x00", "")`: the NUL removal of
`str.replace` with a one-character pattern and empty replacement. -/
def removeNul (s : String) : String :=
  String.mk (s.data.filter (fun c => c ≠ Char.ofNat 0))

/-- Embedding of `TextFileLine` (core/models/file_system/base.py lines 703-728). -/
structure TextFileLine where
  id : Option Nat := none
  file_id : String
  content : String
  line_number : Option Nat := none
  content_hash : Option String := none
  deriving DecidableEq, Repr

/-- Python `s.strip()`: remove leading and trailing whitespace. -/
def pyStrip (s : String) : String :=
  String.mk
    (((s.data.dropWhile Char.isWhitespace).reverse.dropWhile
      Char.isWhitespace).reverse)

/-- Embedding of `TextFileLine.is_empty` (lines 720-723):
`self.content.strip() == ""` -- true exactly when the content is empty or
whitespace-only. -/
def TextFileLine.is_empty (l : TextFileLine) : Bool :=
  pyStrip l.content == ""

/-- Embedding of `BaseTextFile.populate` as written in
core/models/file_system/base.py lines 751-763:

```python
def populate(self, file_path: Path) -> None:
    super().populate(file_path)
    with file_path.open("r", encoding="utf-8", errors="ignore") as f:
        lines = f.readlines()
        self.content = "".join(lines).replace("\x00", "")
        self.lines_json = [
            TextFileLine(
                file_id=self.path_json.id,
                content=line.rstrip("\n"),
                line_number=i + 1,
            )
            for i, line in enumerate(lines)
        ]
```

`FilePath` declares no field or property `id`, so the expression
`self.path_json.id` raises `AttributeError` on the first iteration of the
comprehension; only a file with no lines escapes it.  The text read from the
file is the parameter `fileText`; the result is the `(content, lines_json)`
pair the method would store. -/
def base_text_file_populate (fileText : String) :
    Except PyError (String × List TextFileLine) :=
  let lines := readlines fileText
  let content := removeNul (String.join lines)
  if lines.isEmpty then Except.ok (content, [])
  else Except.error PyError.attributeError

/-- The sibling `BaseTextFile.populate` of core/base.py lines 832-867, whose
comprehension reads `file_id=instance.id` and strips `"\n"` then `"\r"`;
`instance_id` is that id and `sha256_str` the digest that the
`TextFileLine` validator of that file applies to each line's content. -/
def base_text_file_populate_core (sha256_str : String → String)
    (instance_id : String) (fileText : String) :
    String × List TextFileLine :=
  let lines := readlines fileText
  let content := removeNul (String.join lines)
  (content,
    lines.enum.map (fun pr =>
      { file_id := instance_id
        content := rstripCr (rstripNl pr.2)
        line_number := some (pr.1 + 1)
        content_hash := some (sha256_str (rstripCr (rstripNl pr.2))) }))

/-! ### The import pipeline (services/file_importer.py)

Storage is modelled as the list of rows of each table; `session.get(E, k)`
is primary-key lookup, `session.add` plus `commit` appends a row.  A
`StreamingServiceResponse` is the yielded event. -/

/-- Embedding of `StreamingServiceResponse` (services/models.py lines 14-27). -/
structure StreamingServiceResponse where
  status : String
  message : Option String := none
  deriving DecidableEq, Repr

/-- Embedding of `ImageFile` (core/models/file_system/image_file.py lines 241-429):
the base file fields plus the image payload. -/
structure ImageFile extends BaseFileModel where
  fmt : Option String := none
  b64_data : Option String := none
  thumbnail_b64_data : Option String := none
  exif_data : List (String × String) := []
  is_nsfw : Option Bool := none
  deriving DecidableEq, Repr

/-- Embedding of `ImageFile.id`: the inherited `BaseFileModel.id` property. -/
def ImageFile.id (sha256_str : String → String) (img : ImageFile) : String :=
  img.toBaseFileModel.id sha256_str

/-- Row of the `image_files` table written by the importer
(`ImageFileEntity`, image_file.py lines 80-144; DB-computed columns and
server-default timestamps elided). -/
structure ImageFileEntity where
  id : String
  sha256 : String
  path_json : FilePath
  stat_json : BaseFileStat
  mime_type : Option String
  tags : Option (List String)
  short_description : Option String
  long_description : Option String
  frozen : Bool
  fmt : Option String
  b64_data : String
  thumbnail_b64_data : Option String
  exif_data : List (String × String)
  is_nsfw : Bool
  deriving DecidableEq, Repr

/-- Embedding of `ImageFile.entity` (image_file.py lines 412-429). -/
def ImageFile.entity (sha256_str : String → String) (img : ImageFile) :
    ImageFileEntity :=
  { id := img.id sha256_str
    sha256 := img.sha256
    path_json := img.path_json
    stat_json := img.stat_json
    mime_type := img.mime_type
    tags := img.tags
    short_description := img.short_description
    long_description := img.long_description
    frozen := img.frozen
    fmt := img.fmt
    b64_data := img.b64_data.getD ""
    thumbnail_b64_data := img.thumbnail_b64_data
    exif_data := img.exif_data
    is_nsfw := img.is_nsfw.getD false }

/-- The per-image loop of `FileImporterService.import_images`
(file_importer.py lines 110-136): look up the image's id; on a hit yield
`Conflict` and write nothing, otherwise add the entity, commit, and yield
`Created`. -/
def import_images_loop (sha256_str : String → String) :
    List ImageFile → List ImageFileEntity →
    List StreamingServiceResponse × List ImageFileEntity
  | [], rows => ([], rows)
  | img :: rest, rows =>
    match rows.find? (fun r => r.id == img.id sha256_str) with
    | some _ =>
      let res := import_images_loop sha256_str rest rows
      (⟨"Conflict",
        some ("Image with ID " ++ img.id sha256_str ++ " already exists.")⟩
        :: res.1, res.2)
    | none =>
      let e := img.entity sha256_str
      let res := import_images_loop sha256_str rest (rows ++ [e])
      (⟨"Created", some ("Imported image with ID " ++ e.id ++ ".")⟩
        :: res.1, res.2)

/-- Embedding of `FileImporterService.import_images` (file_importer.py lines 85-139):
an `Initiated` event followed by the per-image events. -/
def import_images (sha256_str : String → String) (images : List ImageFile)
    (rows : List ImageFileEntity) :
    List StreamingServiceResponse × List ImageFileEntity :=
  let res := import_images_loop sha256_str images rows
  (⟨"Initiated",
    some ("Starting import of " ++ toString images.length ++ " images.")⟩
    :: res.1, res.2)

/-! ### Repositories and their import (core/models/repo.py,
services/file_importer.py lines 188-274) -/

/-- Embedding of `RepoFile` (repo.py lines 430-523): a `BaseTextFile` plus the
repository-relative path and repository id. -/
structure RepoFile where
  sha256 : String
  path_json : FilePath
  stat_json : BaseFileStat
  mime_type : Option String
  tags : Option (List String) := none
  short_description : Option String := none
  long_description : Option String := none
  frozen : Bool := true
  content : Option String := none
  lines_json : List TextFileLine := []
  repo_path : Option String
  repo_id : Option String
  deriving DecidableEq, Repr

/-- Embedding of `RepoFile.id`: the `BaseFileModel.id` property inherited through
`BaseTextFile`. -/
def RepoFile.id (sha256_str : String → String) (f : RepoFile) : String :=
  sha256_str (PyPath.toStr (FilePath.Path f.path_json) ++ f.sha256)

/-- Embedding of `Repo` (repo.py lines 526-733): a directory record plus repository
type, origin URL, file list, git metadata and last-seen timestamp.
Timestamps are carried as ISO strings. -/
structure Repo where
  stat_json : BaseFileStat
  path_json : FilePath
  tags : Option (List String) := none
  short_description : Option String := none
  long_description : Option String := none
  frozen : Bool := true
  repo_type : String := "git-local"
  url : Option String := none
  files : List RepoFile := []
  git_metadata : Option GitMetadata := none
  last_seen : Option String := none
  deriving DecidableEq, Repr

/-- Embedding of the attribute access `repo.name`.  `Repo` extends the
`BaseDirectory` imported from `core.models.file_system` (repo.py line 96),
and that copy (core/models/file_system/base.py lines 638-688) defines
fields only -- no `name` property.  (The other `BaseDirectory`, in
core/base.py lines 707-712, has one, but `Repo` does not inherit from it.)
The lookup therefore raises `AttributeError`. -/
def Repo.name (_ : Repo) : Except PyError String :=
  Except.error PyError.attributeError

/-- Embedding of the attribute access `repo.id`: like `name`, the `id`
property exists only on the core/base.py `BaseDirectory` (lines 714-716),
not on the copy `Repo` actually extends, so the lookup raises
`AttributeError`. -/
def Repo.id (_ : Repo) : Except PyError String :=
  Except.error PyError.attributeError

/-- Row of the `repos` table (`RepoEntity`, repo.py lines 140-221).  The
primary key is an autoincrement `Integer` column (repo.py line 163), and
the column holding the frozen flag is spelled `frozeen` in the source. -/
structure RepoEntity where
  id : Nat
  stat_json : BaseFileStat
  path_json : FilePath
  tags : Option (List String)
  short_description : Option String
  long_description : Option String
  frozeen : Bool
  repo_type : String
  url : Option String
  git_metadata : Option GitMetadata
  last_seen : Option String
  created_at : String
  updated_at : Option String
  deriving DecidableEq, Repr

/-- Row of the `repo_files` table (`RepoFileEntity`, repo.py lines 224-318;
DB-computed columns and server-default timestamps elided). -/
structure RepoFileEntity where
  id : String
  repo_id : Option String
  sha256 : String
  path_json : FilePath
  stat_json : BaseFileStat
  mime_type : Option String
  tags : Option (List String)
  short_description : Option String
  long_description : Option String
  frozen : Bool
  content : Option String
  lines_json : List TextFileLine
  repo_path : Option String
  deriving DecidableEq, Repr

/-- Embedding of `RepoFile.entity` (repo.py lines 456-473). -/
def RepoFile.entity (sha256_str : String → String) (f : RepoFile) :
    RepoFileEntity :=
  { id := f.id sha256_str
    repo_id := f.repo_id
    sha256 := f.sha256
    path_json := f.path_json
    stat_json := f.stat_json
    mime_type := f.mime_type
    tags := f.tags
    short_description := f.short_description
    long_description := f.long_description
    frozen := f.frozen
    content := f.content
    lines_json := f.lines_json
    repo_path := f.repo_path }

/-- The merge performed by `import_repo` on an existing row
(file_importer.py lines 216-219):

```python
existing_repo.git_metadata = repo.git_metadata
existing_repo.last_seen = func.now()
session.commit()
```

Only the two assigned columns change; every other column of the fetched row
is left as it was.  In the program this code is unreachable -- `import_repo`
raises before it (see `import_repo`) -- so this definition records which
columns the merge statements would touch. -/
def merged_repo_row (existing : RepoEntity) (repo : Repo) (now : String) :
    RepoEntity :=
  { existing with git_metadata := repo.git_metadata, last_seen := some now }

/-- The per-file loop of `import_repo` (file_importer.py lines 238-269):
look up each file by `(repo_id, id)`; on a hit yield `Conflict`, otherwise
insert the file entity and yield `Created`.  Unreachable in the program for
the same reason as the merge; `rid` stands for the `repo.id` value the loop
would close over. -/
def import_repo_files_loop (sha256_str : String → String) (rid : String) :
    List RepoFile → List RepoFileEntity →
    List StreamingServiceResponse × List RepoFileEntity
  | [], frs => ([], frs)
  | f :: rest, frs =>
    match frs.find?
        (fun fr => fr.repo_id == some rid && fr.id == f.id sha256_str) with
    | some _ =>
      let res := import_repo_files_loop sha256_str rid rest frs
      (⟨"Conflict",
        some ("No changes for file with ID " ++ f.id sha256_str ++
          " in repository " ++ rid ++ ".")⟩ :: res.1, res.2)
    | none =>
      let e := f.entity sha256_str
      let res := import_repo_files_loop sha256_str rid rest (frs ++ [e])
      (⟨"Created",
        some ("Imported file with ID " ++ e.id ++ " into repository " ++
          rid ++ ".")⟩ :: res.1, res.2)

/-- Embedding of `FileImporterService.import_repo` (file_importer.py lines 188-274).

The first statement of the method is
`self.__logger.info(f"Importing repository '{repo.name}'...")` (line 202),
before the `Initiated` yield and before the `try`; evaluating `repo.name`
raises `AttributeError` (see `Repo.name`), so the exception escapes on
every call.  Control would next reach `session.get(RepoEntity, repo.id)`
(line 210), where `repo.id` raises the same way -- and the `repos` primary
key is an autoincrement integer a record ID could not match anyway.  The
`Initiated`/`Updated` yields, the merge (lines 216-219, see
`merged_repo_row`) and the per-file loop (lines 238-269, see
`import_repo_files_loop`) are all unreachable. -/
def import_repo (repo : Repo) (_repos : List RepoEntity)
    (_repo_files : List RepoFileEntity) :
    Except PyError
      (List StreamingServiceResponse × List RepoEntity ×
        List RepoFileEntity) :=
  match Repo.name repo with
  | Except.error e => Except.error e
  | Except.ok _ =>
    match Repo.id repo with
    | Except.error e => Except.error e
    | Except.ok _ => Except.error PyError.attributeError

/-! ### Concrete fixtures used by witnesses and counterexamples -/

/-- A scan root holding a sentinel repository deep inside `node_modules/`
next to an ordinary `docs/` directory. -/
def sentinelTree : Dir :=
  Dir.node "root"
    [Dir.node "node_modules" [Dir.node "dep" [Dir.node ".git" []]],
     Dir.node "docs" []]

/-- A concrete populated base file record. -/
def sampleFile : BaseFileModel :=
  { sha256 := "c0ffee"
    stat_json := {}
    path_json := get_path_model ⟨"/", ["data", "f.txt"]⟩
    mime_type := some "text/plain" }

/-- A concrete image record. -/
def sampleImage : ImageFile :=
  { sha256 := "beef00"
    stat_json := {}
    path_json := get_path_model ⟨"/", ["pics", "a.png"]⟩
    mime_type := some "image/png"
    fmt := some "png"
    b64_data := some "QUJD" }

end Cntrlr

namespace Cntrlr

/-! ## Claim theorems -/

/-- C9: the claim says the MIME type computed during populate is always a
non-null string -- the extension-based guess when recognized, the fallback
otherwise.  The code returns the fallback only when the guess is `None` and
falls off the end of the function otherwise, so a recognized extension
(e.g. `document.txt`, guessed `text/plain`) yields `None`, contradicting
the claim, the function docstring and the repository tests. -/
theorem get_mime_type_missing_return :
    get_mime_type (some "text/plain") = none ∧
      get_mime_type none = some "application/octet-stream" :=
  ⟨rfl, rfl⟩

/-- C5: the claim says the first `addLocal` on an unregistered path succeeds
and only the second raises `AlreadyExistsError`, and that `addRemote` on an
existing target fails with `AlreadyExistsError`.  In the code,
`rows_where` returns a generator, which is always truthy, so even on an
empty registry the very first `addLocal` raises
`RepositoryAlreadyExistsError`; and `addRemote` wraps its
already-exists raise in `RepositoryCloningError`. -/
theorem add_repository_always_conflicts :
    add_local_repository [] "/home/user/project" false "/data/remotes"
        (Except.ok ()) 0 = Except.error RepoExc.repositoryAlreadyExists ∧
      add_remote_repository [] "https://example.com/proj.git" "/data/remotes"
        true (Except.ok ()) 0 = Except.error RepoExc.repositoryCloning :=
  ⟨rfl, rfl⟩

/-- C3: the claim says ignored directory names are pruned from descent and
ignored extensions skipped, so nothing under `node_modules/` can appear in a
scan result.  `node_modules` is indeed on `IGNORE_PARTS` (and `.pyc` on
`IGNORE_EXTENSIONS`), but no scanning code consults either list: the only
recursive walk, `__locate_repos`, prunes only `.git`, and on the sentinel
tree it reports the repository nested inside `node_modules/`. -/
theorem locate_repos_descends_into_node_modules :
    "node_modules" ∈ IGNORE_PARTS ∧ ".pyc" ∈ IGNORE_EXTENSIONS ∧
      locate_repos sentinelTree [] = [["node_modules", "dep"]] := by
  refine ⟨by decide, by decide, ?_⟩
  simp [locate_repos, sentinelTree, Dir.name]

/-- C4: the claim says text population yields one line record per line,
1-indexed, blank lines included, with the blank flag set exactly for
whitespace-only lines; for `"# Title\n\nBody"` a 3-entry list whose second
entry is blank.  The cited `BaseTextFile.populate` raises `AttributeError`
on that input (its comprehension reads `self.path_json.id`, an attribute
`FilePath` does not have), producing no line list at all; the sibling
implementation in core/base.py, which reads the id from the instance,
produces exactly the claimed list. -/
theorem base_text_file_populate_attribute_error :
    base_text_file_populate "# Title\n\nBody" =
        Except.error PyError.attributeError ∧
      ((base_text_file_populate_core (fun s => s) "f0"
          "# Title\n\nBody").2.map
        (fun l => (l.line_number, l.content, l.is_empty))) =
        [(some 1, "# Title", false), (some 2, "", true),
          (some 3, "Body", false)] := by
  constructor
  · rfl
  · decide

/-- C8 counterexample: the claim says that for every registry state the
update operations yield exactly one outcome per tracked repository and that
one failure never halts the iteration.  For a registry holding one local
repository registered without a storage copy (`storage_path` is `NULL`,
the default of `addLocal`), `updateAllLocals(in_place=False)` evaluates
`None.exists()` and dies with `AttributeError`, yielding zero outcomes. -/
theorem update_all_locals_none_storage_halts :
    update_all_locals false [⟨"/repo", none, 0, none⟩]
        (fun _ => true) (fun _ => Except.ok ()) =
      ([], some PyError.attributeError) :=
  rfl

/-- C8 (amended): `updateAllRemotes` yields exactly one independent outcome
per directory of the remotes dir, and `updateAllLocals` with
`in_place=True` yields exactly one independent outcome per registry entry
and terminates normally; a pull/fetch failure (or missing path) only shows
up in that entry's own outcome and never halts the iteration. -/
theorem update_all_one_outcome_per_entry :
    ∀ (dirs : List String) (pull : String → Except String Unit)
      (repos : List LocalRepoIdxEntity) (pex : String → Bool)
      (fetch : String → Except String Unit),
      update_all_remotes dirs pull = dirs.map (remote_outcome pull) ∧
        update_all_locals true repos pex fetch =
          (repos.map (fun e => local_outcome pex fetch e.scan_path), none) := by
  intro dirs pull repos pex fetch
  constructor
  · induction dirs with
    | nil => rfl
    | cons p rest ih =>
      simp only [update_all_remotes, List.map_cons, ih, remote_outcome]
  · induction repos with
    | nil => rfl
    | cons e rest ih =>
      simp [update_all_locals, List.map_cons, ih, local_outcome]

/-- C6: for a directory with no `.git` marker, git-metadata extraction
returns null and does not raise, and any underlying git read failure also
degrades to null: the embedded `get_git_metadata` always returns normally
(`.ok`), with `none` both when the marker is absent and when the read
fails. -/
theorem get_git_metadata_degrades_to_none :
    ∀ (marker isDir : Bool) (read : Except String GitMetadata),
      (∃ r, get_git_metadata marker isDir read = Except.ok r) ∧
        (marker = false →
          get_git_metadata marker isDir read = Except.ok none) ∧
        (∀ e, read = Except.error e →
          get_git_metadata marker isDir read = Except.ok none) := by
  intro marker isDir read
  refine ⟨?_, ?_, ?_⟩
  · cases marker <;> cases isDir <;> cases read <;> exact ⟨_, rfl⟩
  · intro h; subst h; rfl
  · intro e he; subst he; cases marker <;> cases isDir <;> rfl

/-- C6 witness: a plain directory (git marker absent) with a failing git
read is extracted as null without an exception. -/
theorem get_git_metadata_degrades_to_none_witness :
    get_git_metadata false true (Except.error "read failed") =
      Except.ok none :=
  (get_git_metadata_degrades_to_none false true
    (Except.error "read failed")).2.1 rfl

/-- Helper: appending strings on the left is cancellable. -/
theorem string_append_left_cancel {s t u : String}
    (h : s ++ t = s ++ u) : t = u := by
  have hd : s.data ++ t.data = s.data ++ u.data := by
    have := congrArg String.data h
    simpa [String.data_append] using this
  have := List.append_cancel_left hd
  cases t; cases u; exact congrArg String.mk this

/-- C1: a populated record's ID is the hash of the pair
(path, content hash): it does not depend on the stat snapshot, the MIME
guess or the record's prior fields, so re-populating the same path over
identical bytes reproduces it; and whenever the content hash changes, the
ID changes too (given that the outer digest does not collide, i.e. is
injective on the strings it is fed). -/
theorem base_file_model_id_path_content :
    ∀ (hs : String → String) (hb : List Nat → String) (p : PyPath)
      (b1 b2 : List Nat) (st1 st2 : BaseFileStat) (g1 g2 : Option String)
      (m1 m2 : BaseFileModel),
      ((m1.populate hb p b1 st1 g1).id hs =
        (m2.populate hb p b1 st2 g2).id hs) ∧
        (Function.Injective hs → hb b1 ≠ hb b2 →
          (m1.populate hb p b1 st1 g1).id hs ≠
            (m2.populate hb p b2 st2 g2).id hs) := by
  intro hs hb p b1 b2 st1 st2 g1 g2 m1 m2
  constructor
  · rfl
  · intro hinj hneq heq
    exact hneq (string_append_left_cancel (hinj heq))

/-- C1 witness: at a concrete path, populating over empty bytes and over
one byte yields different IDs once the content hashes differ. -/
theorem base_file_model_id_path_content_witness :
    (sampleFile.populate (fun l => toString l.length) ⟨"/", ["data", "f.txt"]⟩
        [] {} (some "text/plain")).id (fun s => s) ≠
      (sampleFile.populate (fun l => toString l.length)
        ⟨"/", ["data", "f.txt"]⟩ [7] {} (some "text/plain")).id
        (fun s => s) :=
  (base_file_model_id_path_content (fun s => s) (fun l => toString l.length)
    ⟨"/", ["data", "f.txt"]⟩ [] [7] {} {} (some "text/plain")
    (some "text/plain") sampleFile sampleFile).2 (fun _ _ h => h) (by decide)

/-- Helper: a failed search in a prefix leaves a search in the appended
part. -/
theorem find_after_append {α : Type} (p : α → Bool) (l l2 : List α)
    (h : l.find? p = none) : (l ++ l2).find? p = l2.find? p := by
  induction l with
  | nil => simp
  | cons a t ih =>
    by_cases hpa : p a = true
    · rw [List.find?_cons_of_pos _ hpa] at h; cases h
    · rw [List.find?_cons_of_neg _ hpa] at h
      rw [List.cons_append, List.find?_cons_of_neg _ hpa]
      exact ih h

/-- Helper: a failed search means the filter is empty. -/
theorem filter_nil_of_find_none {α : Type} (p : α → Bool) (l : List α)
    (h : l.find? p = none) : l.filter p = [] := by
  rw [List.filter_eq_nil_iff]
  intro a ha
  have := List.find?_eq_none.mp h a ha
  simpa using this

/-- Helper: the per-image import loop preserves uniqueness of stored IDs --
a row is only added after the lookup for its ID comes back empty. -/
theorem import_images_loop_preserves_nodup
    (hs : String → String) (imgs : List ImageFile) :
    ∀ rows : List ImageFileEntity,
      (rows.map ImageFileEntity.id).Nodup →
      (((import_images_loop hs imgs rows).2).map ImageFileEntity.id).Nodup := by
  induction imgs with
  | nil => intro rows h; simpa [import_images_loop] using h
  | cons img rest ih =>
    intro rows h
    cases hfind : rows.find? (fun r => r.id == img.id hs) with
    | some r => simpa [import_images_loop, hfind] using ih rows h
    | none =>
      have hnotin :
          ∀ a ∈ rows.map ImageFileEntity.id, a ≠ (img.entity hs).id := by
        intro a ha
        rcases List.mem_map.mp ha with ⟨row, hrow, rfl⟩
        have := List.find?_eq_none.mp hfind row hrow
        simpa [ImageFile.entity] using this
      have h2 : ((rows ++ [img.entity hs]).map ImageFileEntity.id).Nodup := by
        simp only [List.map_append, List.map_cons, List.map_nil]
        rw [List.nodup_append]
        refine ⟨h, List.nodup_singleton _, ?_⟩
        intro a ha hb
        have hab : a = (img.entity hs).id := by simpa using hb
        exact hnotin a ha hab
      simpa [import_images_loop, hfind] using ih (rows ++ [img.entity hs]) h2

/-- C2: importing an image whose ID is not yet stored emits
`Initiated, Created` and appends exactly its row; immediately importing it
again emits `Initiated, Conflict` and writes nothing; afterwards exactly
one stored row carries that ID; and every `import_images` call preserves
the invariant that stored IDs are unique. -/
theorem import_images_created_then_conflict :
    ∀ (hs : String → String) (img : ImageFile) (rows : List ImageFileEntity),
      rows.find? (fun r => r.id == img.id hs) = none →
      (rows.map ImageFileEntity.id).Nodup →
      ((import_images hs [img] rows).1.map StreamingServiceResponse.status =
          ["Initiated", "Created"]) ∧
        ((import_images hs [img] rows).2 = rows ++ [img.entity hs]) ∧
        ((import_images hs [img] (rows ++ [img.entity hs])).1.map
            StreamingServiceResponse.status = ["Initiated", "Conflict"]) ∧
        ((import_images hs [img] (rows ++ [img.entity hs])).2 =
          rows ++ [img.entity hs]) ∧
        (((rows ++ [img.entity hs]).filter
            (fun r => r.id == img.id hs)).length = 1) ∧
        (∀ (imgs : List ImageFile) (rows0 : List ImageFileEntity),
          (rows0.map ImageFileEntity.id).Nodup →
          (((import_images hs imgs rows0).2).map ImageFileEntity.id).Nodup) := by
  intro hs img rows hfind hnodup
  have hfind2 : (rows ++ [img.entity hs]).find?
      (fun r => r.id == img.id hs) = some (img.entity hs) := by
    rw [find_after_append _ _ _ hfind]
    simp [ImageFile.entity]
  refine ⟨?_, ?_, ?_, ?_, ?_, ?_⟩
  · simp [import_images, import_images_loop, hfind]
  · simp [import_images, import_images_loop, hfind]
  · simp [import_images, import_images_loop, hfind2]
  · simp [import_images, import_images_loop, hfind2]
  · rw [List.filter_append, filter_nil_of_find_none _ _ hfind]
    simp [ImageFile.entity]
  · intro imgs rows0 h0
    have hloop := import_images_loop_preserves_nodup hs imgs rows0 h0
    simpa [import_images] using hloop

/-- C2 witness: on an empty store, importing a concrete image and then
re-importing it leaves exactly one row with its ID. -/
theorem import_images_created_then_conflict_witness :
    ((([] : List ImageFileEntity) ++ [sampleImage.entity (fun _ => "I1")]).filter
        (fun r => r.id == sampleImage.id (fun _ => "I1"))).length = 1 :=
  (import_images_created_then_conflict (fun _ => "I1") sampleImage []
    rfl (by simp)).2.2.2.2.1

/-- C7: the claim says importing a repository whose ID already exists in
storage merges instead of inserting -- only git metadata and the last-seen
timestamp change, an `Updated` event is emitted, and every other stored
field (the original created-at in particular) is left unchanged.  The
program can never perform that merge: `Repo` extends the `BaseDirectory`
copy that defines neither `name` nor `id`, so `import_repo` raises
`AttributeError` at `repo.name` on every call, before yielding anything,
and the `repo.id` lookup (against a `repos` table whose primary key is an
autoincrement integer no record ID could match) is equally out of reach.
The merge statements themselves, had control reached them, would touch
exactly the two claimed columns, as the second conjunct records. -/
theorem import_repo_attribute_error :
    (∀ (repo : Repo) (repos : List RepoEntity)
        (files : List RepoFileEntity),
      import_repo repo repos files =
        Except.error PyError.attributeError) ∧
      (∀ (existing : RepoEntity) (repo : Repo) (now : String),
        (merged_repo_row existing repo now).git_metadata =
            repo.git_metadata ∧
          (merged_repo_row existing repo now).last_seen = some now ∧
          (merged_repo_row existing repo now).id = existing.id ∧
          (merged_repo_row existing repo now).stat_json =
            existing.stat_json ∧
          (merged_repo_row existing repo now).path_json =
            existing.path_json ∧
          (merged_repo_row existing repo now).tags = existing.tags ∧
          (merged_repo_row existing repo now).short_description =
            existing.short_description ∧
          (merged_repo_row existing repo now).long_description =
            existing.long_description ∧
          (merged_repo_row existing repo now).frozeen = existing.frozeen ∧
          (merged_repo_row existing repo now).repo_type =
            existing.repo_type ∧
          (merged_repo_row existing repo now).url = existing.url ∧
          (merged_repo_row existing repo now).created_at =
            existing.created_at ∧
          (merged_repo_row existing repo now).updated_at =
            existing.updated_at) :=
  ⟨fun _ _ _ => rfl,
    fun _ _ _ =>
      ⟨rfl, rfl, rfl, rfl, rfl, rfl, rfl, rfl, rfl, rfl, rfl, rfl, rfl⟩⟩

/-- Helper: rebuilding a string from its characters is the identity. -/
theorem mk_data_eq (s : String) : String.mk s.data = s := by
  cases s; rfl

/-- Helper: splitting a list that does not contain the separator yields the
single original segment. -/
theorem charSplit_no_sep (sep : Char) :
    ∀ l : List Char, l.contains sep = false → charSplit sep l = [l] := by
  intro l
  induction l with
  | nil => intro _; rfl
  | cons c rest ih =>
    intro h
    rw [List.contains_cons] at h
    have h2 := Bool.or_eq_false_iff.mp h
    have hc : ¬(c = sep) := by
      have hne := beq_eq_false_iff_ne.mp h2.1
      exact fun hcc => hne hcc.symm
    simp [charSplit, hc, ih h2.2]

/-- Helper: a well-formed path component parses to itself. -/
theorem parseNames_single (n : String) (h1 : n ≠ "") (h2 : n ≠ ".")
    (h3 : n.data.contains '/' = false) : parseNames n = [n] := by
  unfold parseNames strSplit
  rw [charSplit_no_sep _ _ h3]
  simp [mk_data_eq, h1, h2]

/-- Helper: a slash-free component is not an absolute argument. -/
theorem startsWithSlash_false (n : String)
    (h : n.data.contains '/' = false) : startsWithSlash n = false := by
  unfold startsWithSlash
  cases hd : n.data with
  | nil => rfl
  | cons c rest =>
    rw [hd, List.contains_cons] at h
    have h2 := Bool.or_eq_false_iff.mp h
    have hc : ¬(c = '/') := by
      have hne := beq_eq_false_iff_ne.mp h2.1
      exact fun hcc => hne hcc.symm
    simp [hc]

/-- Helper: folding well-formed component names onto an accumulated path
appends them one by one. -/
theorem mkPath_fold_names :
    ∀ (ns : List String) (r : String) (acc : List String),
      (∀ n ∈ ns, n ≠ "" ∧ n ≠ "." ∧ n.data.contains '/' = false) →
      List.foldl mkPathStep ⟨r, acc⟩ ns = ⟨r, acc ++ ns⟩ := by
  intro ns
  induction ns with
  | nil => intro r acc _; simp
  | cons n rest ih =>
    intro r acc h
    obtain ⟨hn1, hn2, hn3⟩ := h n (List.mem_cons_self n rest)
    have hstep : mkPathStep ⟨r, acc⟩ n = ⟨r, acc ++ [n]⟩ := by
      unfold mkPathStep
      rw [startsWithSlash_false n hn3, parseNames_single n hn1 hn2 hn3]
      simp
    rw [List.foldl_cons, hstep,
      ih r (acc ++ [n]) (fun m hm => h m (List.mem_cons_of_mem n hm))]
    simp

/-- C10: decomposing a (normalized, as `pathlib` maintains them) filesystem
path into the `FilePath` descriptor with `get_path_model` and rebuilding it
through the descriptor's `Path` property -- `Path(*self.parts)` -- is a
round-trip: the reconstructed path equals the original. -/
theorem path_descriptor_roundtrip :
    ∀ p : PyPath, p.wfb = true → FilePath.Path (get_path_model p) = p := by
  intro p hwf
  obtain ⟨root, names⟩ := p
  have hsplit :
      (root == "" || root == "/" || root == "//") = true ∧
        (names.all fun n => n != "" && n != "." && !(n.data.contains '/')) =
          true := by
    simpa [PyPath.wfb, Bool.and_eq_true] using hwf
  have hnames : ∀ n ∈ names,
      n ≠ "" ∧ n ≠ "." ∧ n.data.contains '/' = false := by
    intro n hn
    have := List.all_eq_true.mp hsplit.2 n hn
    simp only [Bool.and_eq_true, bne_iff_ne, Bool.not_eq_true'] at this
    exact ⟨this.1.1, this.1.2, this.2⟩
  have hroot : root = "" ∨ root = "/" ∨ root = "//" := by
    have := hsplit.1
    simp only [Bool.or_eq_true, beq_iff_eq] at this
    tauto
  show mkPath (PyPath.parts ⟨root, names⟩) = ⟨root, names⟩
  rcases hroot with h | h | h
  · subst h
    show mkPath ([] ++ names) = ⟨"", names⟩
    unfold mkPath
    rw [List.nil_append]
    exact mkPath_fold_names names "" [] hnames
  · subst h
    show mkPath ("/" :: names) = ⟨"/", names⟩
    unfold mkPath
    rw [List.foldl_cons]
    have hfirst : mkPathStep ⟨"", []⟩ "/" = ⟨"/", []⟩ := by decide
    rw [hfirst]
    exact mkPath_fold_names names "/" [] hnames
  · subst h
    show mkPath ("//" :: names) = ⟨"//", names⟩
    unfold mkPath
    rw [List.foldl_cons]
    have hfirst : mkPathStep ⟨"", []⟩ "//" = ⟨"//", []⟩ := by decide
    rw [hfirst]
    exact mkPath_fold_names names "//" [] hnames

/-- C10 witness: a concrete absolute path survives the decomposition and
reconstruction round-trip. -/
theorem path_descriptor_roundtrip_witness :
    FilePath.Path
        (get_path_model ⟨"/", ["home", "user", "docs", "file.txt"]⟩) =
      ⟨"/", ["home", "user", "docs", "file.txt"]⟩ :=
  path_descriptor_roundtrip ⟨"/", ["home", "user", "docs", "file.txt"]⟩
    (by decide)

end Cntrlr
